import Mathlib

/-!
Verification of the findhub backend (accounts and parties apps) against its
natural-language specification.  The Django models and serializers are
shallowly embedded: timestamps are abstract instants (`Nat`), the relational
stores are lists of records, and each serializer operation is a function from
a store and a payload to `Except String` of the updated store.
-/

namespace Findhub

/-! ## Party domain store (`parties/models.py`) -/

/-- The fields of `Party` that its derived properties and the claims read
(the remaining columns of `parties/models.py` are presentational data that
no embedded operation touches). -/
structure Party where
  title : String
  slug : String
  host : Nat
  start_date : Nat
  end_date : Nat
  rsvp_deadline : Option Nat
  privacy_level : String
  status : String
  rsvp_type : String
  max_attendees : Option Nat
  deriving Repr, DecidableEq

/-- `Party.is_past`: `self.end_date < timezone.now()`. -/
def Party.is_past (p : Party) (now : Nat) : Bool :=
  p.end_date < now

/-- `Party.is_upcoming`: `self.start_date > timezone.now()`. -/
def Party.is_upcoming (p : Party) (now : Nat) : Bool :=
  p.start_date > now

/-- `Party.can_rsvp`, line for line: closed RSVP type, then a set and passed
deadline, then a past party each return `False`; otherwise `True`. -/
def Party.can_rsvp (p : Party) (now : Nat) : Bool :=
  if p.rsvp_type == "closed" then false
  else if (match p.rsvp_deadline with
           | some d => decide (now > d)
           | none => false) then false
  else if p.is_past now then false
  else true

/-- A row of `party_rsvps` (`PartyRSVP`): party and user are foreign keys. -/
structure PartyRSVP where
  party : Nat
  user : Nat
  status : String
  plus_ones : Nat
  approved_by_host : Bool
  checked_in : Bool
  deriving Repr, DecidableEq

/-- `Party.attendee_count`: `self.rsvps.filter(status='attending').count()`,
evaluated against the current RSVP store on every read. -/
def Party.attendee_count (rsvps : List PartyRSVP) (pid : Nat) : Nat :=
  (rsvps.filter (fun r => r.party == pid && r.status == "attending")).length

/-- A row of `party_likes` (`PartyLike`). -/
structure PartyLike where
  party : Nat
  user : Nat
  deriving Repr, DecidableEq

/-- Inserting a `PartyRSVP`: the database rejects the write when
`unique_together = ['party', 'user']` is violated. -/
def createPartyRSVP (s : List PartyRSVP) (r : PartyRSVP) :
    Except String (List PartyRSVP) :=
  if s.any (fun x => x.party == r.party && x.user == r.user) then
    .error "UNIQUE constraint failed: party_rsvps.party, party_rsvps.user"
  else
    .ok (r :: s)

/-- Inserting a `PartyLike`: the database rejects the write when
`unique_together = ['party', 'user']` is violated. -/
def createPartyLike (s : List PartyLike) (l : PartyLike) :
    Except String (List PartyLike) :=
  if s.any (fun x => x.party == l.party && x.user == l.user) then
    .error "UNIQUE constraint failed: party_likes.party, party_likes.user"
  else
    .ok (l :: s)

/-- RSVP stores reachable from the empty table by successful inserts. -/
inductive RSVPReachable : List PartyRSVP → Prop
  | nil : RSVPReachable []
  | create {s s' : List PartyRSVP} {r : PartyRSVP} :
      RSVPReachable s → createPartyRSVP s r = .ok s' → RSVPReachable s'

/-- Like stores reachable from the empty table by successful inserts. -/
inductive LikeReachable : List PartyLike → Prop
  | nil : LikeReachable []
  | create {s s' : List PartyLike} {l : PartyLike} :
      LikeReachable s → createPartyLike s l = .ok s' → LikeReachable s'

/-- No two RSVP rows share a (party, user) pair. -/
def uniqueRSVPPairs (s : List PartyRSVP) : Prop :=
  s.Pairwise (fun a b => ¬(a.party = b.party ∧ a.user = b.user))

/-- No two like rows share a (party, user) pair. -/
def uniqueLikePairs (s : List PartyLike) : Prop :=
  s.Pairwise (fun a b => ¬(a.party = b.party ∧ a.user = b.user))

/-! ## Accounts store (`accounts/models.py`) -/

/-- Python/Django `lower()`, embedded as a structurally recursive character
map so that proofs can evaluate it on literals. -/
def strLower (s : String) : String :=
  String.mk (s.data.map Char.toLower)

/-- The fields of `User` that the embedded operations read.  The stored
credential is Django's hashed password; hashing is injective for our
purposes, so the credential is carried as the password string itself and
`check_password` is equality on it. -/
structure User where
  id : Nat
  email : String
  username : String
  password : String
  first_name : String
  last_name : String
  user_type : String
  is_active : Bool
  is_premium : Bool
  premium_expires_at : Option Nat
  last_active : Nat
  deriving Repr, DecidableEq

/-- `User.is_premium_active`: not premium gives `False`; with an expiry set,
`self.premium_expires_at > timezone.now()`; premium with no expiry, `True`. -/
def User.is_premium_active (u : User) (now : Nat) : Bool :=
  if !u.is_premium then false
  else match u.premium_expires_at with
       | some e => decide (e > now)
       | none => true

/-- Framework `check_password`: the supplied raw password against the stored
credential. -/
def User.check_password (u : User) (raw : String) : Bool :=
  u.password == raw

/-- Framework `set_password`: replace the stored credential. -/
def User.set_password (u : User) (raw : String) : User :=
  { u with password := raw }

/-- A row of `user_profiles` (`UserProfile`), created alongside the user at
registration with default field values. -/
structure UserProfile where
  user : Nat
  bio : String
  privacy_level : String
  total_parties_created : Nat
  total_parties_attended : Nat
  deriving Repr, DecidableEq

/-- Modelled from the spec: the `UserSettings` model is referenced by
`accounts/serializers.py` but its definition is not in the shown
`accounts/models.py`; the spec says only that it is a per-user settings
record in 1:1 relation with `User`, created together with it at
registration. -/
structure UserSettings where
  user : Nat
  deriving Repr, DecidableEq

/-- The three relational tables the accounts serializers touch. -/
structure AccountsStore where
  users : List User
  profiles : List UserProfile
  settings : List UserSettings
  deriving Repr, DecidableEq

/-- Modelled from the spec: the external password-policy checker
(`django.contrib.auth.password_validation.validate_password`), an external
collaborator of which the spec records only that a password can fail the
strength policy.  Modelled as the default minimum-length rule. -/
def validate_password (s : String) : Bool :=
  decide (8 ≤ s.length)

/-- The registration payload of `UserRegistrationSerializer`. -/
structure RegPayload where
  email : String
  username : String
  password : String
  password_confirm : String
  first_name : String
  last_name : String
  user_type : String
  deriving Repr, DecidableEq

/-- The user row `create_user` persists for a validated registration payload:
the email as lowercased by `validate_email`, the raw password as the stored
credential, and the model defaults for the remaining columns. -/
def newUserFrom (p : RegPayload) (newId : Nat) (now : Nat) : User :=
  { id := newId, email := strLower p.email, username := p.username,
    password := p.password, first_name := p.first_name,
    last_name := p.last_name, user_type := p.user_type,
    is_active := true, is_premium := false, premium_expires_at := none,
    last_active := now }

/-- `UserRegistrationSerializer`: field-level checks first (`validate_email`
with `email__iexact`, `validate_username` with `username__iexact`, the
password-policy validator on `password`), then the object-level `validate`
comparing `password` and `password_confirm`; on success `create` builds the
user (with the email lowercased by `validate_email`) and one `UserProfile`
and one `UserSettings` row for it. -/
def register (s : AccountsStore) (p : RegPayload) (newId : Nat)
    (now : Nat) : Except String AccountsStore :=
  if s.users.any (fun u => strLower u.email == strLower p.email) then
    .error "A user with this email already exists."
  else if s.users.any (fun u => strLower u.username == strLower p.username) then
    .error "A user with this username already exists."
  else if !validate_password p.password then
    .error "This password is too short."
  else if p.password != p.password_confirm then
    .error "Password fields did not match."
  else
    .ok { users := newUserFrom p newId now :: s.users,
          profiles := { user := newId, bio := "", privacy_level := "public",
                        total_parties_created := 0,
                        total_parties_attended := 0 } :: s.profiles,
          settings := { user := newId } :: s.settings }

/-- Framework `authenticate` (the default model backend): returns the active
user whose login field (`USERNAME_FIELD = email`) and password match, and
`None` otherwise — also when the matching account is inactive. -/
def authenticate (users : List User) (email password : String) :
    Option User :=
  users.find? (fun u =>
    u.email == email && u.check_password password && u.is_active)

/-- Modelled from the spec: `User.update_last_active`, called by the login
serializer but not in the shown `accounts/models.py`; the spec says login
"records a last active timestamp update as a side effect". -/
def update_last_active (users : List User) (uid : Nat) (now : Nat) :
    List User :=
  users.map (fun v => if v.id == uid then { v with last_active := now } else v)

/-- `UserLoginSerializer.validate`: lowercase the email, require both fields
nonempty, authenticate, reject a missing match with the single generic
message, reject an inactive user, and on success record the last-active
update and return the user.  (`remember_me` carries no logic here.) -/
def login (users : List User) (email password : String) (now : Nat) :
    Except String (List User × User) :=
  let email := strLower email
  if email != "" && password != "" then
    match authenticate users email password with
    | none => .error "Unable to log in with provided credentials."
    | some u =>
        if !u.is_active then .error "User account is disabled."
        else .ok (update_last_active users u.id now, u)
  else
    .error "Must include \"email\" and \"password\"."

/-- The payload of `PasswordChangeSerializer`. -/
structure PasswordChangePayload where
  old_password : String
  new_password : String
  new_password_confirm : String
  deriving Repr, DecidableEq

/-- `PasswordChangeSerializer`: `validate_old_password` checks the supplied
current password against the stored credential, the password-policy
validator runs on `new_password`, the object-level `validate` compares
`new_password` and `new_password_confirm`, and `save` replaces the stored
credential and saves the user. -/
def password_change (user : User) (p : PasswordChangePayload) :
    Except String User :=
  if !user.check_password p.old_password then
    .error "Old password is incorrect."
  else if !validate_password p.new_password then
    .error "This password is too short."
  else if p.new_password != p.new_password_confirm then
    .error "New password fields did not match."
  else
    .ok (user.set_password p.new_password)

/-! ## Claims about the derived read-only properties -/

/-- C1: `can_rsvp` is false if `rsvp_type` is "closed", false if a deadline
is set and the current time is strictly after it, false if the party is past
(`end_date` strictly before the current time), and true otherwise. -/
theorem can_rsvp_spec (p : Party) (now : Nat) :
    p.can_rsvp now = true ↔
      p.rsvp_type ≠ "closed" ∧
      (∀ d, p.rsvp_deadline = some d → ¬ now > d) ∧
      ¬ p.end_date < now := by
  cases h : p.rsvp_deadline with
  | none =>
      by_cases hc : p.rsvp_type = "closed" <;>
        by_cases he : p.end_date < now <;>
          simp [Party.can_rsvp, Party.is_past, h, hc, he]
  | some d =>
      by_cases hc : p.rsvp_type = "closed" <;>
        by_cases hd : now > d <;>
          by_cases he : p.end_date < now <;>
            simp [Party.can_rsvp, Party.is_past, h, hc, hd, he] <;>
              omega

/-- C2: `is_premium_active` is false for a non-premium user; for a premium
user with an expiry it is true exactly while the current time is strictly
before the expiry; for a premium user with no expiry it is true. -/
theorem is_premium_active_spec (u : User) (now : Nat) :
    u.is_premium_active now = true ↔
      u.is_premium = true ∧
      (∀ e, u.premium_expires_at = some e → now < e) := by
  cases h : u.premium_expires_at with
  | none =>
      by_cases hp : u.is_premium <;> simp [User.is_premium_active, h, hp]
  | some e =>
      by_cases hp : u.is_premium <;>
        by_cases hl : now < e <;>
          simp [User.is_premium_active, h, hp, hl, Nat.lt_irrefl] <;> omega

/-- C10: `can_rsvp` does not read the `status` column — for a party whose
RSVP type is not "closed", whose deadline (if any) has not passed, and whose
`end_date` is in the future, it is true even when `status` is "draft" or
"cancelled". -/
theorem can_rsvp_ignores_status (p : Party) (now : Nat)
    (h1 : p.rsvp_type ≠ "closed")
    (h2 : ∀ d, p.rsvp_deadline = some d → ¬ now > d)
    (h3 : now < p.end_date)
    (h4 : p.status = "draft" ∨ p.status = "cancelled") :
    p.can_rsvp now = true := by
  have he : ¬ p.end_date < now := by omega
  cases h : p.rsvp_deadline with
  | none =>
      simp [Party.can_rsvp, Party.is_past, h, h1, he]
  | some d =>
      have hd := h2 d h
      simp [Party.can_rsvp, Party.is_past, h, h1, hd, he]

/-- Witness for C10: a concrete draft party that can still be RSVPed. -/
theorem can_rsvp_ignores_status_witness :
    ({ title := "t", slug := "t", host := 1, start_date := 10, end_date := 20,
       rsvp_deadline := some 15, privacy_level := "public", status := "draft",
       rsvp_type := "open", max_attendees := none } : Party).can_rsvp 12
      = true :=
  can_rsvp_ignores_status _ 12 (by decide)
    (by intro d hd; cases hd; decide) (by decide) (Or.inl rfl)

/-! ## Claims about the RSVP count -/

/-- C3: `attendee_count` is the number of RSVP rows of the party whose
status is "attending", recomputed against the current store on each read;
consequently flipping one such row's status to "attending" raises the count
by one. -/
theorem attendee_count_spec (pre post : List PartyRSVP) (r : PartyRSVP)
    (pid : Nat) (hp : r.party = pid) (hs : r.status ≠ "attending") :
    Party.attendee_count (pre ++ r :: post) pid =
      (pre ++ r :: post).countP
        (fun x => decide (x.party = pid ∧ x.status = "attending")) ∧
    Party.attendee_count (pre ++ { r with status := "attending" } :: post) pid
      = Party.attendee_count (pre ++ r :: post) pid + 1 := by
  constructor
  · unfold Party.attendee_count
    rw [List.countP_eq_length_filter]
    congr 1
    apply List.filter_congr
    intro x _
    by_cases h1 : x.party = pid <;> by_cases h2 : x.status = "attending" <;>
      simp [h1, h2]
  · simp [Party.attendee_count, List.filter_append, hp, hs]
    omega

/-- Witness row for C3: an RSVP whose status is "maybe". -/
def rsvpMaybe : PartyRSVP :=
  { party := 1, user := 2, status := "maybe", plus_ones := 0,
    approved_by_host := false, checked_in := false }

/-- Witness for C3, at a one-row store holding `rsvpMaybe`. -/
theorem attendee_count_spec_witness :
    Party.attendee_count ([] ++ rsvpMaybe :: []) 1 =
      (([] : List PartyRSVP) ++ rsvpMaybe :: []).countP
        (fun x => decide (x.party = 1 ∧ x.status = "attending")) ∧
    Party.attendee_count
        ([] ++ { rsvpMaybe with status := "attending" } :: []) 1
      = Party.attendee_count ([] ++ rsvpMaybe :: []) 1 + 1 :=
  attendee_count_spec [] [] rsvpMaybe 1 rfl (by decide)

/-! ## Claims about registration -/

/-- C4: registration is rejected whenever the payload email matches an
existing email case-insensitively, or the payload username matches an
existing username case-insensitively; an `.error` result leaves every store
untouched, so no record is created. -/
theorem register_rejects_duplicate (s : AccountsStore) (p : RegPayload)
    (newId : Nat) (now : Nat)
    (h : (∃ u ∈ s.users, strLower u.email = strLower p.email) ∨
         (∃ u ∈ s.users, strLower u.username = strLower p.username)) :
    ∃ e, register s p newId now = .error e := by
  unfold register
  rcases h with ⟨u, hu, hdup⟩ | ⟨u, hu, hdup⟩
  · have hm : s.users.any (fun u => strLower u.email == strLower p.email)
        = true :=
      List.any_eq_true.mpr ⟨u, hu, by simp [hdup]⟩
    simp [hm]
  · by_cases hm : s.users.any (fun u => strLower u.email == strLower p.email)
        = true
    · simp [hm]
    · have hn : s.users.any
          (fun u => strLower u.username == strLower p.username) = true :=
        List.any_eq_true.mpr ⟨u, hu, by simp [hdup]⟩
      simp [hm, hn]

/-- Witness for C4: registering a case-variant of a taken email fails. -/
theorem register_rejects_duplicate_witness :
    ∃ e,
      register
        { users := [newUserFrom
            { email := "alice@example.com", username := "alice",
              password := "password123", password_confirm := "password123",
              first_name := "A", last_name := "B", user_type := "creator" }
            1 0],
          profiles := [], settings := [] }
        { email := "Alice@Example.COM", username := "someoneelse",
          password := "password456", password_confirm := "password456",
          first_name := "C", last_name := "D", user_type := "creator" }
        2 5 = .error e :=
  register_rejects_duplicate _ _ 2 5 (Or.inl (by decide))

/-- C5: a payload whose password and confirmation differ is always rejected;
the `.error` result means no User, UserProfile or UserSettings row is
created. -/
theorem register_rejects_password_mismatch (s : AccountsStore)
    (p : RegPayload) (newId : Nat) (now : Nat)
    (h : p.password ≠ p.password_confirm) :
    ∃ e, register s p newId now = .error e := by
  cases e : register s p newId now with
  | error msg => exact ⟨msg, rfl⟩
  | ok s' =>
      exfalso
      unfold register at e
      repeat' split at e
      all_goals simp_all

/-- Witness for C5: mismatched confirmation on an empty store. -/
theorem register_rejects_password_mismatch_witness :
    ∃ e,
      register { users := [], profiles := [], settings := [] }
        { email := "bob@example.com", username := "bob",
          password := "password123", password_confirm := "password124",
          first_name := "B", last_name := "C", user_type := "creator" }
        1 0 = .error e :=
  register_rejects_password_mismatch _ _ 1 0 (by decide)

/-- C6: a successful registration pushes exactly one new row onto each of
the three tables in one transition, and both the profile row and the
settings row reference the id of the new user row. -/
theorem register_creates_three_linked (s : AccountsStore) (p : RegPayload)
    (newId : Nat) (now : Nat) (s' : AccountsStore)
    (h : register s p newId now = .ok s') :
    ∃ u : User, s'.users = u :: s.users ∧ u.id = newId ∧
      (∃ pr : UserProfile, s'.profiles = pr :: s.profiles ∧ pr.user = u.id) ∧
      (∃ st : UserSettings, s'.settings = st :: s.settings ∧
        st.user = u.id) := by
  unfold register at h
  repeat' split at h
  all_goals try exact Except.noConfusion h
  injection h with h2
  subst h2
  exact ⟨_, rfl, rfl, ⟨_, rfl, rfl⟩, ⟨_, rfl, rfl⟩⟩

/-- The store produced by the witness registration for C6. -/
def regPayloadW : RegPayload :=
  { email := "carol@example.com", username := "carol",
    password := "password123", password_confirm := "password123",
    first_name := "C", last_name := "D", user_type := "attendee" }

/-- Witness for C6: a concrete successful registration on empty stores. -/
theorem register_creates_three_linked_witness :
    ∃ u : User,
      ({ users := [newUserFrom regPayloadW 7 100],
         profiles := [{ user := 7, bio := "", privacy_level := "public",
                        total_parties_created := 0,
                        total_parties_attended := 0 }],
         settings := [{ user := 7 }] } : AccountsStore).users
          = u :: ([] : List User) ∧
      u.id = 7 ∧
      (∃ pr : UserProfile,
        [({ user := 7, bio := "", privacy_level := "public",
            total_parties_created := 0,
            total_parties_attended := 0 } : UserProfile)]
          = pr :: ([] : List UserProfile) ∧ pr.user = u.id) ∧
      (∃ st : UserSettings,
        [({ user := 7 } : UserSettings)]
          = st :: ([] : List UserSettings) ∧ st.user = u.id) :=
  register_creates_three_linked
    { users := [], profiles := [], settings := [] } regPayloadW 7 100 _
    rfl

/-! ## Claims about login -/

/-- C7: whether the email is registered with a wrong password, or not
registered at all, login fails with the identical generic message, so the
response does not reveal which part of the credentials was wrong. -/
theorem login_generic_failure (users : List User)
    (e1 p1 e2 p2 : String) (now : Nat)
    (he1 : strLower e1 ≠ "") (hp1 : p1 ≠ "")
    (he2 : strLower e2 ≠ "") (hp2 : p2 ≠ "")
    (hreg : ∃ u ∈ users, u.email = strLower e1)
    (hwrong : ∀ u ∈ users, u.email = strLower e1 → u.password ≠ p1)
    (hunreg : ∀ u ∈ users, u.email ≠ strLower e2) :
    login users e1 p1 now
        = .error "Unable to log in with provided credentials." ∧
    login users e2 p2 now
        = .error "Unable to log in with provided credentials." := by
  have hauth1 : authenticate users (strLower e1) p1 = none := by
    apply List.find?_eq_none.mpr
    intro u hu
    by_cases h1 : u.email = strLower e1
    · have h2 := hwrong u hu h1
      simp [User.check_password, h1, h2]
    · simp [User.check_password, h1]
  have hauth2 : authenticate users (strLower e2) p2 = none := by
    apply List.find?_eq_none.mpr
    intro u hu
    have h1 := hunreg u hu
    simp [User.check_password, h1]
  constructor
  · simp [login, he1, hp1, hauth1]
  · simp [login, he2, hp2, hauth2]

/-- The one-user store of the login witness. -/
def loginUsersW : List User :=
  [{ id := 1, email := "alice@example.com", username := "alice",
     password := "rightpassword", first_name := "A", last_name := "B",
     user_type := "creator", is_active := true, is_premium := false,
     premium_expires_at := none, last_active := 0 }]

/-- Witness for C7: a wrong password for a registered email and an unknown
email yield the very same error. -/
theorem login_generic_failure_witness :
    login loginUsersW "Alice@Example.com" "wrongpassword" 5
        = .error "Unable to log in with provided credentials." ∧
    login loginUsersW "bob@example.com" "whatever" 5
        = .error "Unable to log in with provided credentials." :=
  login_generic_failure loginUsersW "Alice@Example.com" "wrongpassword"
    "bob@example.com" "whatever" 5 (by decide) (by decide) (by decide)
    (by decide) (by decide) (by decide) (by decide)

/-! ## Claims about the (party, user) uniqueness constraints -/

/-- Every RSVP store built by successful inserts satisfies the
`unique_together` invariant. -/
theorem reachable_rsvp_unique {s : List PartyRSVP} (h : RSVPReachable s) :
    uniqueRSVPPairs s := by
  induction h with
  | nil => exact List.Pairwise.nil
  | create hprev hok ih =>
      unfold createPartyRSVP at hok
      split at hok
      · exact Except.noConfusion hok
      · injection hok with h2
        subst h2
        rename_i hany
        refine List.Pairwise.cons ?_ ih
        intro b hb hcon
        apply hany
        refine List.any_eq_true.mpr ⟨b, hb, ?_⟩
        rw [hcon.1, hcon.2]
        simp

/-- Every like store built by successful inserts satisfies the
`unique_together` invariant. -/
theorem reachable_like_unique {s : List PartyLike} (h : LikeReachable s) :
    uniqueLikePairs s := by
  induction h with
  | nil => exact List.Pairwise.nil
  | create hprev hok ih =>
      unfold createPartyLike at hok
      split at hok
      · exact Except.noConfusion hok
      · injection hok with h2
        subst h2
        rename_i hany
        refine List.Pairwise.cons ?_ ih
        intro b hb hcon
        apply hany
        refine List.any_eq_true.mpr ⟨b, hb, ?_⟩
        rw [hcon.1, hcon.2]
        simp

/-- C8: in every reachable state there is at most one RSVP row and at most
one like row per (party, user) pair, and inserting a second row for a pair
that already has one is rejected. -/
theorem rsvp_like_pair_unique (s : List PartyRSVP) (t : List PartyLike)
    (hs : RSVPReachable s) (ht : LikeReachable t) :
    uniqueRSVPPairs s ∧ uniqueLikePairs t ∧
    (∀ r : PartyRSVP, (∃ x ∈ s, x.party = r.party ∧ x.user = r.user) →
      ∃ e, createPartyRSVP s r = .error e) ∧
    (∀ l : PartyLike, (∃ x ∈ t, x.party = l.party ∧ x.user = l.user) →
      ∃ e, createPartyLike t l = .error e) := by
  refine ⟨reachable_rsvp_unique hs, reachable_like_unique ht, ?_, ?_⟩
  · rintro r ⟨x, hx, h1, h2⟩
    have hany : s.any (fun x => x.party == r.party && x.user == r.user)
        = true :=
      List.any_eq_true.mpr ⟨x, hx, by simp [h1, h2]⟩
    exact ⟨"UNIQUE constraint failed: party_rsvps.party, party_rsvps.user",
      by simp [createPartyRSVP, hany]⟩
  · rintro l ⟨x, hx, h1, h2⟩
    have hany : t.any (fun x => x.party == l.party && x.user == l.user)
        = true :=
      List.any_eq_true.mpr ⟨x, hx, by simp [h1, h2]⟩
    exact ⟨"UNIQUE constraint failed: party_likes.party, party_likes.user",
      by simp [createPartyLike, hany]⟩

/-- A concrete RSVP row for the C8 witness. -/
def rsvpRow1 : PartyRSVP :=
  { party := 1, user := 2, status := "attending", plus_ones := 0,
    approved_by_host := false, checked_in := false }

/-- A concrete like row for the C8 witness. -/
def likeRow1 : PartyLike := { party := 1, user := 2 }

/-- Witness for C8 at concrete reachable one-row stores. -/
theorem rsvp_like_pair_unique_witness :
    uniqueRSVPPairs [rsvpRow1] ∧ uniqueLikePairs [likeRow1] ∧
    (∃ e, createPartyRSVP [rsvpRow1] rsvpRow1 = .error e) ∧
    (∃ e, createPartyLike [likeRow1] likeRow1 = .error e) := by
  have H := rsvp_like_pair_unique [rsvpRow1] [likeRow1]
    (RSVPReachable.create RSVPReachable.nil rfl)
    (LikeReachable.create LikeReachable.nil rfl)
  exact ⟨H.1, H.2.1, H.2.2.1 rsvpRow1 ⟨rsvpRow1, by simp, rfl, rfl⟩,
    H.2.2.2 likeRow1 ⟨likeRow1, by simp, rfl, rfl⟩⟩

/-! ## Claims about password change -/

/-- The caller of the password-change counterexample. -/
def pcUser : User :=
  { id := 1, email := "alice@example.com", username := "alice",
    password := "oldpassword", first_name := "A", last_name := "B",
    user_type := "creator", is_active := true, is_premium := false,
    premium_expires_at := none, last_active := 0 }

/-- The payload of the password-change counterexample: correct old password,
matching confirmation, but a new password the strength policy rejects. -/
def pcPayload : PasswordChangePayload :=
  { old_password := "oldpassword", new_password := "short",
    new_password_confirm := "short" }

/-- C9 counterexample: the old password matches and the confirmation
matches, yet password change still fails, because the serializer also runs
the external strength validator on `new_password` — so validation failure is
not equivalent to "old password wrong or confirmation mismatch". -/
theorem password_change_iff_cex :
    pcUser.check_password pcPayload.old_password = true ∧
    pcPayload.new_password = pcPayload.new_password_confirm ∧
    password_change pcUser pcPayload
      = .error "This password is too short." :=
  ⟨rfl, rfl, rfl⟩

/-- C9 (amended): password change fails with a validation error exactly when
the old password does not match the stored credential, the new password
fails the strength policy, or the new password and its confirmation differ;
otherwise it succeeds and the saved user carries the new password as its
stored credential. -/
theorem password_change_spec (u : User) (p : PasswordChangePayload) :
    (password_change u p = .ok (u.set_password p.new_password) ↔
      (u.check_password p.old_password = true ∧
       validate_password p.new_password = true ∧
       p.new_password = p.new_password_confirm)) ∧
    ((∃ e, password_change u p = .error e) ↔
      (u.check_password p.old_password = false ∨
       validate_password p.new_password = false ∨
       p.new_password ≠ p.new_password_confirm)) := by
  by_cases h1 : u.check_password p.old_password <;>
    by_cases h2 : validate_password p.new_password <;>
      by_cases h3 : p.new_password = p.new_password_confirm <;>
        simp [password_change, h1, h2, h3, Bool.not_eq_true] <;>
          simp_all

end Findhub
